import Mathlib

/-
  Verification development for the EraserApplication backend.

  The Python backend is shallowly embedded: pure helpers become Lean
  functions, exception handling becomes explicit result values, and the
  external collaborators (PIL drawing and encoding, the Replicate client,
  HTTP fetches, wall-clock time) become oracle parameters threaded through
  an environment record.  Pixel value `true` models pure white (the edit
  target), `false` models pure black.
-/

set_option maxRecDepth 8000

namespace Eraser

/-- An axis-aligned rectangular region (`models.Region`): top-left corner
`x`, `y` and extent `width`, `height`, all integers. -/
structure Region where
  x : Int
  y : Int
  width : Int
  height : Int
deriving DecidableEq

/-- Pixel `(px, py)` of a `w`-by-`h` canvas lies inside region `r` once `r`
is clipped to the canvas bounds. -/
def inClippedRegion (w h : Nat) (r : Region) (px py : Nat) : Prop :=
  px < w ∧ py < h ∧
    r.x ≤ (px : Int) ∧ (px : Int) < r.x + r.width ∧
    r.y ≤ (py : Int) ∧ (py : Int) < r.y + r.height

instance (w h : Nat) (r : Region) (px py : Nat) :
    Decidable (inClippedRegion w h r px py) := by
  unfold inClippedRegion
  infer_instance

/-- The raster test performed when one rectangle is drawn: the corner
coordinates of the rectangle are first clipped against the canvas. -/
def drawTest (w h : Nat) (r : Region) (px py : Nat) : Prop :=
  max r.x 0 ≤ (px : Int) ∧ (px : Int) < min (r.x + r.width) (w : Int) ∧
  max r.y 0 ≤ (py : Int) ∧ (py : Int) < min (r.y + r.height) (h : Int)

instance (w h : Nat) (r : Region) (px py : Nat) :
    Decidable (drawTest w h r px py) := by
  unfold drawTest
  infer_instance

/-- Paint one clipped rectangle in white on top of an existing mask. -/
def drawRegion (w h : Nat) (r : Region) (m : Nat → Nat → Bool) :
    Nat → Nat → Bool :=
  fun px py => decide (drawTest w h r px py) || m px py

/-- Modelled from the spec: `ImageUtils.create_mask_base64_from_regions` is
called by `AIService._create_mask_from_regions` but its definition is absent
from the source tree.  Spec section 4.2: `fromRegions(size, regions)` "fills
the union of all given rectangles (each independently clipped to image
bounds); empty region list yields an all-black mask".  Starting from an
all-black canvas, each rectangle is drawn in turn. -/
def create_mask_from_regions (w h : Nat) (regions : List Region) :
    Nat → Nat → Bool :=
  regions.foldl (fun m r => drawRegion w h r m) (fun _ _ => false)

lemma foldl_drawRegion_pixel (w h : Nat) (rs : List Region)
    (m : Nat → Nat → Bool) (px py : Nat) :
    (rs.foldl (fun acc r => drawRegion w h r acc) m) px py = true ↔
      (m px py = true ∨ ∃ r ∈ rs, drawTest w h r px py) := by
  induction rs generalizing m with
  | nil => simp
  | cons r rs ih =>
    simp only [List.foldl_cons, ih, drawRegion, Bool.or_eq_true,
      decide_eq_true_eq, List.mem_cons]
    constructor
    · rintro ((hd | hm) | ⟨r2, hr2, ht⟩)
      · exact Or.inr ⟨r, Or.inl rfl, hd⟩
      · exact Or.inl hm
      · exact Or.inr ⟨r2, Or.inr hr2, ht⟩
    · rintro (hm | ⟨r2, (rfl | hr2), ht⟩)
      · exact Or.inl (Or.inr hm)
      · exact Or.inl (Or.inl ht)
      · exact Or.inr ⟨r2, hr2, ht⟩

lemma drawTest_iff_inClippedRegion (w h : Nat) (r : Region) (px py : Nat)
    (hx : px < w) (hy : py < h) :
    drawTest w h r px py ↔ inClippedRegion w h r px py := by
  unfold drawTest inClippedRegion
  omega

/-- C1: building a mask from a region list produces a mask whose white-pixel
set is exactly the union of the given rectangles, each independently clipped
to the canvas; an empty region list yields an all-black mask; on a 20-by-20
canvas with the two sample rectangles the white pixels are exactly the pixel
union of the two rectangles. -/
theorem region_mask_is_union_of_clipped_rects :
    (∀ (w h : Nat) (rs : List Region) (px py : Nat), px < w → py < h →
        (create_mask_from_regions w h rs px py = true ↔
          ∃ r ∈ rs, inClippedRegion w h r px py))
    ∧ (∀ (w h px py : Nat), create_mask_from_regions w h [] px py = false)
    ∧ (∀ px py : Nat, px < 20 → py < 20 →
        (create_mask_from_regions 20 20
            [⟨0, 0, 10, 10⟩, ⟨5, 5, 10, 10⟩] px py = true ↔
          ((px < 10 ∧ py < 10) ∨
            (5 ≤ px ∧ px < 15 ∧ 5 ≤ py ∧ py < 15)))) := by
  have hmain : ∀ (w h : Nat) (rs : List Region) (px py : Nat),
      px < w → py < h →
      (create_mask_from_regions w h rs px py = true ↔
        ∃ r ∈ rs, inClippedRegion w h r px py) := by
    intro w h rs px py hx hy
    rw [create_mask_from_regions, foldl_drawRegion_pixel]
    simp only [Bool.false_eq_true, false_or]
    exact exists_congr fun r => and_congr_right fun _ =>
      drawTest_iff_inClippedRegion w h r px py hx hy
  refine ⟨hmain, ?_, ?_⟩
  · intro w h px py
    rfl
  · intro px py hx hy
    rw [hmain 20 20 _ px py hx hy]
    constructor
    · rintro ⟨r, hr, hin⟩
      simp only [List.mem_cons, List.not_mem_nil, or_false] at hr
      rcases hr with rfl | rfl
      · refine Or.inl ?_
        simp only [inClippedRegion] at hin
        omega
      · refine Or.inr ?_
        simp only [inClippedRegion] at hin
        omega
    · rintro (hcase | hcase)
      · refine ⟨⟨0, 0, 10, 10⟩, by simp, ?_⟩
        simp only [inClippedRegion]
        omega
      · refine ⟨⟨5, 5, 10, 10⟩, by simp, ?_⟩
        simp only [inClippedRegion]
        omega

/-- Witness for C1 at concrete pixels of the 20-by-20 example. -/
theorem region_mask_is_union_of_clipped_rects_witness :
    create_mask_from_regions 20 20 [⟨0, 0, 10, 10⟩, ⟨5, 5, 10, 10⟩] 7 7 = true := by
  exact (region_mask_is_union_of_clipped_rects.2.2 7 7 (by decide)
    (by decide)).mpr (Or.inl ⟨by decide, by decide⟩)

/-- One step of `LoggingService._write_action_to_file`: the current log is
read, the new record appended, and the list truncated to the most recent
1000 records before it is written back. -/
def appendAction {α : Type} (log : List α) (a : α) : List α :=
  let actions := log ++ [a]
  if 1000 < actions.length then actions.drop (actions.length - 1000) else actions

/-- The persisted log after appending each record of `l`, in order, to an
initially empty log file. -/
def appendAll {α : Type} (l : List α) : List α :=
  l.foldl appendAction []

lemma appendAction_drop {α : Type} (p : List α) (a : α) :
    appendAction (p.drop (p.length - 1000)) a
      = (p ++ [a]).drop (p.length + 1 - 1000) := by
  simp only [appendAction, List.length_append, List.length_drop,
    List.length_cons, List.length_nil]
  by_cases hlen : p.length < 1000
  · rw [if_neg (by omega)]
    have h0 : p.length - 1000 = 0 := by omega
    have h1 : p.length + 1 - 1000 = 0 := by omega
    simp [h0, h1]
  · rw [if_pos (by omega)]
    have hamt : p.length - (p.length - 1000) + 1 - 1000 = 1 := by omega
    rw [hamt]
    rw [List.drop_append_of_le_length (by
      simp only [List.length_drop]
      omega)]
    rw [List.drop_drop]
    have h2 : p.length - 1000 + 1 = p.length + 1 - 1000 := by omega
    rw [h2]
    rw [List.drop_append_of_le_length
        (show p.length + 1 - 1000 ≤ p.length by omega)]

lemma foldl_appendAction_drop {α : Type} (l : List α) :
    ∀ p : List α, l.foldl appendAction (p.drop (p.length - 1000))
      = (p ++ l).drop ((p ++ l).length - 1000) := by
  induction l with
  | nil =>
    intro p
    simp
  | cons a l ih =>
    intro p
    have hrec := ih (p ++ [a])
    have hlen2 : (p ++ [a]).length - 1000 = p.length + 1 - 1000 := by
      simp
    rw [hlen2] at hrec
    rw [List.foldl_cons, appendAction_drop, hrec]
    simp [List.append_assoc]

lemma appendAll_eq_drop {α : Type} (l : List α) :
    appendAll l = l.drop (l.length - 1000) := by
  have h := foldl_appendAction_drop l ([] : List α)
  simpa [appendAll] using h

/-- C7: the persisted action log never exceeds 1000 records; the log kept
after any sequence of appends is exactly the most recent suffix of the
appended sequence, so records stay in append order and the oldest records
are discarded first; after 1001 sequential appends the length is exactly
1000 and the first record is absent. -/
theorem action_log_cap :
    (∀ (α : Type) (l : List α), (appendAll l).length ≤ 1000)
    ∧ (∀ (α : Type) (l : List α), appendAll l = l.drop (l.length - 1000))
    ∧ ((appendAll (List.range 1001)).length = 1000
        ∧ appendAll (List.range 1001) = (List.range 1001).drop 1
        ∧ 0 ∉ appendAll (List.range 1001)) := by
  have hdrop : ∀ (α : Type) (l : List α), appendAll l = l.drop (l.length - 1000) :=
    fun α l => appendAll_eq_drop l
  have hr : appendAll (List.range 1001) = (List.range 1001).drop 1 := by
    rw [hdrop, List.length_range]
  refine ⟨?_, hdrop, ?_, hr, ?_⟩
  · intro α l
    rw [hdrop, List.length_drop]
    omega
  · rw [hr, List.length_drop, List.length_range]
  · rw [hr]
    have : List.range 1001 = 0 :: (List.range 1000).map Nat.succ :=
      List.range_succ_eq_map 1000
    rw [this, List.drop_one, List.tail_cons]
    simp

/-- A binary mask raster: dimensions plus a pixel predicate, `true` white. -/
structure MaskImg where
  width : Nat
  height : Nat
  pix : Nat → Nat → Bool

/-- External PIL operations used by the mask builders: `polyFill` stands for
`ImageDraw.polygon` with a white fill, `maskEncode` for PNG serialization
followed by base64 of the mask (`ImageUtils.encode_image_to_base64`). -/
structure PILOps where
  polyFill : List (Int × Int) → Nat → Nat → Bool
  maskEncode : MaskImg → String

/-- `ImageUtils.create_mask_from_coordinates`: a black canvas on which the
polygon is drawn in white only when at least 3 points are supplied.
`rasterOk = false` stands for an exception raised inside the try block; the
source catches it, logs an error and returns an all-black mask.  The second
component records whether an error was logged. -/
def create_mask_from_coordinates (ops : PILOps) (rasterOk : Bool)
    (w h : Nat) (coordinates : List (Int × Int)) : MaskImg × Bool :=
  if rasterOk then
    ({ width := w, height := h,
       pix := fun px py =>
         if 3 ≤ coordinates.length then ops.polyFill coordinates px py
         else false },
      false)
  else ({ width := w, height := h, pix := fun _ _ => false }, true)

/-- `ImageUtils.create_mask_base64_from_coordinates`: build the polygon mask
and serialize it (serialization is modelled as total). -/
def create_mask_base64_from_coordinates (ops : PILOps) (rasterOk : Bool)
    (w h : Nat) (coordinates : List (Int × Int)) : String × Bool :=
  let m := create_mask_from_coordinates ops rasterOk w h coordinates
  (ops.maskEncode m.1, m.2)

/-- Modelled from the spec: `ImageUtils.create_mask_base64_from_regions` is
called by `AIService` but absent from the source tree.  Spec section 4.2:
the union of the clipped rectangles is rasterized, and "any internal
rasterization failure is caught and downgraded to an all-black mask plus a
logged error".  The second component records whether an error was logged. -/
def create_mask_base64_from_regions (ops : PILOps) (rasterOk : Bool)
    (w h : Nat) (regions : List Region) : String × Bool :=
  if rasterOk then
    (ops.maskEncode
      { width := w, height := h, pix := create_mask_from_regions w h regions },
      false)
  else
    (ops.maskEncode { width := w, height := h, pix := fun _ _ => false }, true)

/-- `AIService._create_mask_from_coordinates`: wrap the base64 mask in a
data URI. -/
def ai_create_mask_from_coordinates (ops : PILOps) (rasterOk : Bool)
    (w h : Nat) (coordinates : List (Int × Int)) : String × Bool :=
  let m := create_mask_base64_from_coordinates ops rasterOk w h coordinates
  ("data:image/png;base64," ++ m.1, m.2)

/-- `AIService._create_mask_from_regions`: wrap the base64 mask in a data
URI. -/
def ai_create_mask_from_regions (ops : PILOps) (rasterOk : Bool)
    (w h : Nat) (regions : List Region) : String × Bool :=
  let m := create_mask_base64_from_regions ops rasterOk w h regions
  ("data:image/png;base64," ++ m.1, m.2)

/-- Python `str.startswith`, realized structurally over the character
lists so that concrete runs reduce. -/
def strStart : List Char → List Char → Bool
  | [], _ => true
  | _ :: _, [] => false
  | p :: ps, c :: cs => p = c && strStart ps cs

/-- `s.startswith(p)` of Python. -/
def pyStartsWith (s p : String) : Bool := strStart p.data s.data

/-- Python `s.split(',')`, realized structurally over the character list. -/
def splitCommaAux : List Char → List Char → List String
  | [], acc => [String.mk acc.reverse]
  | c :: rest, acc =>
    if c = ',' then String.mk acc.reverse :: splitCommaAux rest []
    else splitCommaAux rest (c :: acc)

/-- `s.split(',')` of Python. -/
def pySplitComma (s : String) : List String := splitCommaAux s.data []

/-- `AIService._prepare_image_for_api`: wrap bare base64 in a data URI. -/
def prepare_image_for_api (s : String) : String :=
  if pyStartsWith s ("http://") || pyStartsWith s ("https://")
      || pyStartsWith s ("data:") then s
  else "data:image/png;base64," ++ s

/-- The shapes of the output value of the Replicate client handled by
`AIService.remove_object`: a plain string, a list, a dict probed at the
keys output / image / result, or null. -/
inductive ReplicateOutput
  | str (s : String)
  | list (l : List String)
  | obj (output image result : Option String)
  | null

/-- Python truthiness of the output value (`if not output`). -/
def outputFalsy : ReplicateOutput → Bool
  | ReplicateOutput.null => true
  | ReplicateOutput.str s => s = ""
  | ReplicateOutput.list l => l.isEmpty
  | ReplicateOutput.obj _ _ _ => false

/-- Python `or` chaining on optional strings: an empty string is falsy and
falls through to the next alternative. -/
def pyOr (a b : Option String) : Option String :=
  match a with
  | some s => if s = "" then b else some s
  | none => b

/-- The `processed_image_url` extraction of `AIService.remove_object`. -/
def extractOutputUrl : ReplicateOutput → Option String
  | ReplicateOutput.str s => some s
  | ReplicateOutput.list l => if 0 < l.length then l.head? else none
  | ReplicateOutput.obj o i r => pyOr (pyOr o i) r
  | ReplicateOutput.null => none

/-- The oracles standing for the environment of one `remove_object` call:
whether `REPLICATE_API_KEY` is configured, the outcome of
`ImageUtils.decode_base64_image` on the image of the request (shared by
`ImageService` and `AIService`, which decode the same string), whether the
PIL rasterization calls raise, the outcome of `replicate.Client.run`, the
outcome of the HTTP fetch of a result URL, the external base64 encoder for
fetched bytes, and the elapsed wall-clock time. -/
structure AIEnv where
  apiKeyPresent : Bool
  decodeRes : Except String (Nat × Nat)
  rasterOk : Bool
  clientOutput : Except String ReplicateOutput
  fetchRes : Except String (List Nat)
  b64ofBytes : List Nat → String
  elapsed : Nat

/-- The dictionary returned by `AIService.remove_object`; absent keys are
`none` so that the `.get(key, default)` reads of the caller can be
modelled. -/
structure AIResult where
  success : Bool
  error : Option String := none
  processed_image : Option String := none
  processing_time : Nat := 0
  model_used : Option String := none
  coordinates_analyzed : Option Nat := none
  mask_generated : Option Bool := none
  image_dimensions : Option String := none

/-- The result of `AIService.remove_object` together with a trace of the
externally visible steps it performed. -/
structure AITrace where
  result : AIResult
  decoded : Bool := false
  maskBuilt : Bool := false
  maskErrorLogged : Bool := false
  loggedMaskSource : Option String := none
  sentImage : Option String := none
  sentMask : Option String := none
  externalCalled : Bool := false

/-- The URL-or-inline normalization of the external result
(`AIService.remove_object`, conversion step).  `fetchRes` is the outcome of
`requests.get` and `b64ofBytes` the external base64 encoder. -/
def urlToBase64 (fetchRes : Except String (List Nat))
    (b64ofBytes : List Nat → String) (url : String) : Except String String :=
  if pyStartsWith url ("http://") || pyStartsWith url ("https://") then
    match fetchRes with
    | Except.error e => Except.error e
    | Except.ok bytes => Except.ok (b64ofBytes bytes)
  else if pyStartsWith url ("data:") then
    match (pySplitComma url).get? 1 with
    | some t => Except.ok t
    | none => Except.error ("malformed data uri")
  else Except.ok url

/-- The tail of `AIService.remove_object` once a mask has been built: call
the Replicate client and normalize its output.  Only the client outcome,
the fetch outcome, the byte encoder and the elapsed time are consulted. -/
def remove_object_with_mask (clientOutput : Except String ReplicateOutput)
    (fetchRes : Except String (List Nat)) (b64ofBytes : List Nat → String)
    (elapsed : Nat) (sent_image mask_image : String)
    (mask_err : Bool) (mask_source : String) (coordinates : List (Int × Int))
    (w h : Nat) : AITrace :=
  let tr0 : AITrace :=
    { result := { success := false }, decoded := true, maskBuilt := true,
      maskErrorLogged := mask_err, loggedMaskSource := some mask_source,
      sentImage := some sent_image, sentMask := some mask_image,
      externalCalled := true }
  match clientOutput with
  | Except.error e =>
    { tr0 with result :=
      { success := false, error := some ("Replicate API error: " ++ e),
        processing_time := elapsed } }
  | Except.ok out =>
    if outputFalsy out then
      { tr0 with result :=
        { success := false,
          error := some ("No output received from Replicate API"),
          processing_time := elapsed } }
    else
      match extractOutputUrl out with
      | none =>
        { tr0 with result :=
          { success := false,
            error := some ("Invalid output format from Replicate API"),
            processing_time := elapsed } }
      | some url =>
        if url = "" then
          { tr0 with result :=
            { success := false,
              error := some ("Invalid output format from Replicate API"),
              processing_time := elapsed } }
        else
          match urlToBase64 fetchRes b64ofBytes url with
          | Except.error e =>
            { tr0 with result :=
              { success := false,
                error := some ("Failed to download processed image: " ++ e),
                processing_time := elapsed } }
          | Except.ok b64 =>
            { tr0 with result :=
              { success := true,
                processed_image := some ("data:image/png;base64," ++ b64),
                processing_time := elapsed,
                model_used := some ("bria/eraser"),
                coordinates_analyzed :=
                  some (if coordinates.isEmpty then 0 else coordinates.length),
                mask_generated := some true,
                image_dimensions :=
                  some (toString w ++ "x" ++ toString h) } }

/-- The coordinate branch of the mask step of `AIService.remove_object`:
fewer than 3 coordinates fail fast, otherwise the polygon mask is built. -/
def remove_object_coords (ops : PILOps) (env : AIEnv) (sent_image : String)
    (coordinates : List (Int × Int)) (w h : Nat) : AITrace :=
  if coordinates.length < 3 then
    { result :=
      { success := false,
        error := some ("Insufficient coordinates to create mask"),
        processing_time := 0 },
      decoded := true }
  else
    let m := ai_create_mask_from_coordinates ops env.rasterOk w h coordinates
    remove_object_with_mask env.clientOutput env.fetchRes env.b64ofBytes
      env.elapsed sent_image m.1 m.2
      (toString coordinates.length ++ " coordinate points") coordinates w h

/-- `AIService.remove_object`: configuration check, decode for sizing,
mask construction with regions taking precedence over coordinates, the
external call, and normalization of its result. -/
def remove_object (ops : PILOps) (env : AIEnv) (image_base64 : String)
    (coordinates : List (Int × Int)) (regions : Option (List Region)) :
    AITrace :=
  if env.apiKeyPresent then
    match env.decodeRes with
    | Except.error e =>
      { result :=
        { success := false,
          error := some ("AI object removal failed: " ++ e),
          processing_time := env.elapsed },
        decoded := true }
    | Except.ok (w, h) =>
      let sent_image := prepare_image_for_api image_base64
      match regions with
      | some rs =>
        if 0 < rs.length then
          let m := ai_create_mask_from_regions ops env.rasterOk w h rs
          remove_object_with_mask env.clientOutput env.fetchRes env.b64ofBytes
            env.elapsed sent_image m.1 m.2
            (toString rs.length ++ " regions") coordinates w h
        else remove_object_coords ops env sent_image coordinates w h
      | none => remove_object_coords ops env sent_image coordinates w h
  else
    { result :=
      { success := false,
        error :=
          some ("AI service not configured. Please set REPLICATE_API_KEY."),
        processing_time := 0 } }

/-- One entry of the `coordinates` JSON list of the request (`models.Coordinate`
after conversion). -/
structure CoordData where
  x : Int
  y : Int

/-- One entry of the `regions` JSON list of the request before conversion; a
field is `none` when it is missing or not convertible to `int`. -/
structure RegionData where
  x : Option Int
  y : Option Int
  width : Option Int
  height : Option Int

/-- The per-entry try/except parse of `ImageService.process_image_removal`:
a malformed entry yields `none` and is skipped by `filterMap`. -/
def parseRegion (r : RegionData) : Option Region :=
  match r.x, r.y, r.width, r.height with
  | some a, some b, some c, some d =>
    some { x := a, y := b, width := c, height := d }
  | _, _, _, _ => none

/-- Python truthiness of the optional `regions_data` list
(`not regions_data or len(regions_data) == 0`). -/
def regionsEmpty : Option (List RegionData) → Bool
  | none => true
  | some l => l.isEmpty

/-- The parsed region list of `ImageService.process_image_removal`. -/
def parsedRegions : Option (List RegionData) → List Region
  | some l => l.filterMap parseRegion
  | none => []

/-- The `regions` argument handed to `AIService.remove_object`
(`regions if len(regions) > 0 else None`). -/
def regionsArgOf (rdata : Option (List RegionData)) : Option (List Region) :=
  if 0 < (parsedRegions rdata).length then some (parsedRegions rdata) else none

/-- One bundle kept in `ImageService.processed_images` (the ResultStore). -/
structure StoredEntry where
  original : String
  processed : String
  coordinates_used : Nat
  mask_approach : Bool
  processing_method : String

/-- The dictionary returned by `ImageService.process_image_removal`. -/
structure ProcResult where
  success : Bool
  error : Option String := none
  processed_image : Option String := none
  message : Option String := none
  processing_time : Option Nat := none
  request_id : Option String := none
  ai_analysis : Option String := none
  mask_generated : Option Bool := none
  coordinates_processed : Option Nat := none

/-- The result of one `process_image_removal` call together with the new
store contents and a trace of the steps performed. -/
structure ProcTrace where
  result : ProcResult
  store : List (String × StoredEntry)
  validationFailed : Bool := false
  aiCalled : Bool := false
  aiRegionsArg : Option (List Region) := none
  ai : Option AITrace := none

/-- `ImageService.process_image_removal`: validate, parse coordinates and
regions, decode for metadata, delegate to `AIService.remove_object`, then
normalize the outcome, writing the store only on success.  A `ValueError`
raised by validation or by the decode step is caught by the surrounding
handler and returned as a failure carrying the request id and elapsed
time. -/
def process_image_removal (ops : PILOps) (env : AIEnv) (image_data : String)
    (coordinates_data : List CoordData)
    (regions_data : Option (List RegionData))
    (store : List (String × StoredEntry)) (request_id : String) : ProcTrace :=
  if image_data = "" then
    { result :=
      { success := false, error := some ("No image data provided"),
        processing_time := some env.elapsed, request_id := some request_id },
      store := store, validationFailed := true }
  else if regionsEmpty regions_data && decide (coordinates_data.length < 3) then
    { result :=
      { success := false,
        error := some ("Provide regions or at least 3 coordinate points"),
        processing_time := some env.elapsed, request_id := some request_id },
      store := store, validationFailed := true }
  else
    let coordinates := coordinates_data.map (fun c => (c.x, c.y))
    match env.decodeRes with
    | Except.error e =>
      { result :=
        { success := false, error := some e,
          processing_time := some env.elapsed,
          request_id := some request_id },
        store := store }
    | Except.ok _ =>
      let regionsArg := regionsArgOf regions_data
      let t := remove_object ops env image_data coordinates regionsArg
      if t.result.success then
        let processed_base64 := (t.result.processed_image).getD ("")
        let mask_generated := (t.result.mask_generated).getD false
        let image_dimensions := (t.result.image_dimensions).getD ("unknown")
        let coordinates_count :=
          (t.result.coordinates_analyzed).getD coordinates.length
        let ai_analysis :=
          "Successfully removed object using mask-based approach"
          ++ (if mask_generated then
                " - Generated binary mask from " ++ toString coordinates_count
                  ++ " polygon points"
              else "")
          ++ (if image_dimensions = "unknown" then ""
              else " - Processed image: " ++ image_dimensions)
        { result :=
          { success := true,
            processed_image := some processed_base64,
            message :=
              some ("Object removal completed using mask-based approach"),
            processing_time := some env.elapsed,
            request_id := some request_id,
            ai_analysis := some ai_analysis,
            mask_generated := some mask_generated,
            coordinates_processed := some coordinates_count },
          store := store ++ [(request_id,
            { original := image_data, processed := processed_base64,
              coordinates_used := coordinates_count, mask_approach := true,
              processing_method := "mask_based_removal" })],
          aiCalled := true, aiRegionsArg := regionsArg, ai := some t }
      else
        { result :=
          { success := false,
            error := some ("AI object removal failed: "
              ++ ((t.result.error).getD ("AI processing failed"))),
            processing_time := some env.elapsed,
            request_id := some request_id },
          store := store, aiCalled := true, aiRegionsArg := regionsArg,
          ai := some t }

lemma with_mask_trace (co : Except String ReplicateOutput)
    (fe : Except String (List Nat)) (bb : List Nat → String) (el : Nat)
    (si mi : String) (me : Bool) (ms : String)
    (c : List (Int × Int)) (w h : Nat) :
    (remove_object_with_mask co fe bb el si mi me ms c w h).maskBuilt = true
    ∧ (remove_object_with_mask co fe bb el si mi me ms c w h).sentMask = some mi
    ∧ (remove_object_with_mask co fe bb el si mi me ms c w h).loggedMaskSource
        = some ms
    ∧ (remove_object_with_mask co fe bb el si mi me ms c w h).maskErrorLogged
        = me := by
  unfold remove_object_with_mask
  repeat' split
  all_goals simp

lemma with_mask_result_indep (co : Except String ReplicateOutput)
    (fe : Except String (List Nat)) (bb : List Nat → String) (el : Nat)
    (si ms : String)
    (c : List (Int × Int)) (w h : Nat) (mi mi2 : String) (me me2 : Bool) :
    (remove_object_with_mask co fe bb el si mi me ms c w h).result
      = (remove_object_with_mask co fe bb el si mi2 me2 ms c w h).result := by
  unfold remove_object_with_mask
  repeat' split
  all_goals rfl

lemma remove_object_none_regions (ops : PILOps) (env : AIEnv)
    (image : String) (c : List (Int × Int)) (w h : Nat)
    (hkey : env.apiKeyPresent = true)
    (hdec : env.decodeRes = Except.ok (w, h)) :
    remove_object ops env image c none
      = remove_object_coords ops env (prepare_image_for_api image) c w h := by
  unfold remove_object
  rw [hkey, if_pos rfl, hdec]

lemma remove_object_some_regions (ops : PILOps) (env : AIEnv)
    (image : String) (c : List (Int × Int)) (rs : List Region) (w h : Nat)
    (hkey : env.apiKeyPresent = true)
    (hdec : env.decodeRes = Except.ok (w, h)) (hrs : 0 < rs.length) :
    remove_object ops env image c (some rs)
      = remove_object_with_mask env.clientOutput env.fetchRes env.b64ofBytes
          env.elapsed (prepare_image_for_api image)
          (ai_create_mask_from_regions ops env.rasterOk w h rs).1
          (ai_create_mask_from_regions ops env.rasterOk w h rs).2
          (toString rs.length ++ " regions") c w h := by
  unfold remove_object
  rw [hkey, if_pos rfl, hdec]
  dsimp only
  rw [if_pos hrs]

lemma remove_object_coords_maskBuilt (ops : PILOps) (env : AIEnv)
    (si : String) (c : List (Int × Int)) (w h : Nat) (hc : ¬ c.length < 3) :
    (remove_object_coords ops env si c w h).maskBuilt = true := by
  unfold remove_object_coords
  rw [if_neg hc]
  exact (with_mask_trace _ _ _ _ _ _ _ _ _ _ _).1

lemma process_ai_fields (ops : PILOps) (env : AIEnv) (image : String)
    (cdata : List CoordData) (rdata : Option (List RegionData))
    (store : List (String × StoredEntry)) (rid : String) (w h : Nat)
    (himg : ¬ image = "")
    (hcond : (regionsEmpty rdata && decide (cdata.length < 3)) = false)
    (hdec : env.decodeRes = Except.ok (w, h)) :
    (process_image_removal ops env image cdata rdata store rid).ai
        = some (remove_object ops env image (cdata.map fun c => (c.x, c.y))
            (regionsArgOf rdata))
    ∧ (process_image_removal ops env image cdata rdata store rid).aiCalled
        = true
    ∧ (process_image_removal ops env image cdata rdata store rid).aiRegionsArg
        = regionsArgOf rdata
    ∧ (process_image_removal ops env image cdata rdata store rid).validationFailed
        = false := by
  unfold process_image_removal
  rw [if_neg himg, hcond]
  simp only [Bool.false_eq_true, if_false, hdec]
  split
  all_goals exact ⟨rfl, rfl, rfl, rfl⟩

/-- C4: a process request with a missing image, or with an empty region
list and fewer than 3 coordinates, fails as a validation error before any
image decoding or external call — the outcome is independent of every
oracle (decoder, rasterizer, client) and no AI call is traced; a request
with exactly 3 coordinates and no regions passes validation, and, once the
decode for sizing succeeds on a configured service, proceeds through mask
construction. -/
theorem validation_boundary :
    (∀ (ops ops2 : PILOps) (env env2 : AIEnv) (image : String)
        (cdata : List CoordData) (rdata : Option (List RegionData))
        (store : List (String × StoredEntry)) (rid : String),
      env.elapsed = env2.elapsed →
      (image = "" ∨ (regionsEmpty rdata = true ∧ cdata.length < 3)) →
      (process_image_removal ops env image cdata rdata store rid).validationFailed
          = true
      ∧ (process_image_removal ops env image cdata rdata store rid).result.success
          = false
      ∧ (process_image_removal ops env image cdata rdata store rid).store = store
      ∧ (process_image_removal ops env image cdata rdata store rid).aiCalled
          = false
      ∧ process_image_removal ops env image cdata rdata store rid
          = process_image_removal ops2 env2 image cdata rdata store rid)
    ∧ (∀ (ops : PILOps) (env : AIEnv) (image : String)
        (cdata : List CoordData) (store : List (String × StoredEntry))
        (rid : String) (w h : Nat),
      image ≠ "" → cdata.length = 3 → env.apiKeyPresent = true →
      env.decodeRes = Except.ok (w, h) →
      (process_image_removal ops env image cdata none store rid).validationFailed
          = false
      ∧ ∃ t, (process_image_removal ops env image cdata none store rid).ai
          = some t ∧ t.maskBuilt = true) := by
  constructor
  · intro ops ops2 env env2 image cdata rdata store rid helapsed hval
    rcases hval with rfl | ⟨hre, hlt⟩
    · refine ⟨?_, ?_, ?_, ?_, ?_⟩ <;>
        simp [process_image_removal, helapsed]
    · rcases em (image = "") with rfl | himg
      · refine ⟨?_, ?_, ?_, ?_, ?_⟩ <;>
          simp [process_image_removal, helapsed]
      · have hco : (regionsEmpty rdata && decide (cdata.length < 3)) = true := by
          rw [hre, decide_eq_true hlt]
          rfl
        refine ⟨?_, ?_, ?_, ?_, ?_⟩ <;>
          simp [process_image_removal, himg, hco, helapsed]
  · intro ops env image cdata store rid w h himg hlen hkey hdec
    have hcond : (regionsEmpty none && decide (cdata.length < 3)) = false := by
      rw [hlen]
      simp [regionsEmpty]
    obtain ⟨hai, _, _, hvf⟩ :=
      process_ai_fields ops env image cdata none store rid w h himg hcond hdec
    refine ⟨hvf, remove_object ops env image (cdata.map fun c => (c.x, c.y))
      (regionsArgOf none), hai, ?_⟩
    rw [show regionsArgOf none = none from rfl,
      remove_object_none_regions ops env image _ w h hkey hdec]
    exact remove_object_coords_maskBuilt ops env _ _ w h (by
      rw [List.length_map, hlen]
      omega)

/-- Concrete PIL oracle used to instantiate theorems on closed inputs. -/
def opsW : PILOps :=
  { polyFill := fun _ _ _ => false, maskEncode := fun _ => "MASK" }

/-- Concrete healthy environment: configured key, 20-by-20 decode, raster
fine, client answering an inline data URI. -/
def envW : AIEnv :=
  { apiKeyPresent := true, decodeRes := Except.ok (20, 20), rasterOk := true,
    clientOutput := Except.ok (ReplicateOutput.str ("data:image/png;base64,abc")),
    fetchRes := Except.error ("offline"), b64ofBytes := fun _ => "",
    elapsed := 5 }

/-- Concrete environment whose external service is unconfigured. -/
def envNoKey : AIEnv :=
  { envW with apiKeyPresent := false }

/-- Three concrete polygon coordinates. -/
def cdata3 : List CoordData := [⟨0, 0⟩, ⟨10, 0⟩, ⟨0, 10⟩]

/-- Witness for C4: a request with no image fails validation; a request
with exactly 3 coordinates and no regions passes validation and builds the
mask. -/
theorem validation_boundary_witness :
    ((process_image_removal opsW envW ("") [] none [] "rid").validationFailed
        = true)
    ∧ ((process_image_removal opsW envW ("img") cdata3 none [] "rid").validationFailed
        = false) := by
  refine ⟨(validation_boundary.1 opsW opsW envW envW ("") [] none [] "rid" rfl
    (Or.inl rfl)).1, ?_⟩
  exact (validation_boundary.2 opsW envW ("img") cdata3 [] "rid" 20 20
    (by decide) (by decide) rfl rfl).1

/-- C5: every failing process request returns `success = false` together
with a populated processing time and request id, and leaves the result
store untouched — the store is written only on success. -/
theorem failure_writes_nothing :
    ∀ (ops : PILOps) (env : AIEnv) (image : String) (cdata : List CoordData)
      (rdata : Option (List RegionData)) (store : List (String × StoredEntry))
      (rid : String),
      (process_image_removal ops env image cdata rdata store rid).result.request_id
          = some rid
      ∧ (process_image_removal ops env image cdata rdata store rid).result.processing_time
          = some env.elapsed
      ∧ ((process_image_removal ops env image cdata rdata store rid).result.success
            = false →
          (process_image_removal ops env image cdata rdata store rid).store
            = store) := by
  intro ops env image cdata rdata store rid
  by_cases h1 : image = ""
  · simp [process_image_removal, h1]
  · by_cases h2 : (regionsEmpty rdata && decide (cdata.length < 3)) = true
    · simp [process_image_removal, h1, h2]
    · cases hdec : env.decodeRes with
      | error e =>
        unfold process_image_removal
        rw [if_neg h1, if_neg h2]
        simp [hdec]
      | ok p =>
        obtain ⟨w, h⟩ := p
        unfold process_image_removal
        rw [if_neg h1, if_neg h2]
        simp only [hdec]
        generalize remove_object ops env image
          (List.map (fun c => (c.x, c.y)) cdata) (regionsArgOf rdata) = t
        cases ht : t.result.success
        · simp
        · simp

/-- Witness for C5 at a concrete failing request (unconfigured service). -/
theorem failure_writes_nothing_witness :
    (process_image_removal opsW envNoKey ("img") cdata3 none [] "rid").result.request_id
        = some ("rid")
    ∧ (process_image_removal opsW envNoKey ("img") cdata3 none [] "rid").store
        = [] := by
  refine ⟨(failure_writes_nothing opsW envNoKey ("img") cdata3 none [] "rid").1,
    (failure_writes_nothing opsW envNoKey ("img") cdata3 none [] "rid").2.2 ?_⟩
  rfl

/-- C9: malformed region entries are silently skipped while parsing; a
request whose region list is non-empty but entirely malformed still passes
validation, and the inpainting step then receives no regions. -/
theorem malformed_regions_skipped :
    ∀ (ops : PILOps) (env : AIEnv) (image : String) (cdata : List CoordData)
      (rdata : List RegionData) (store : List (String × StoredEntry))
      (rid : String),
      image ≠ "" → rdata ≠ [] → (∀ r ∈ rdata, parseRegion r = none) →
      (process_image_removal ops env image cdata (some rdata) store rid).validationFailed
          = false
      ∧ regionsArgOf (some rdata) = none
      ∧ ((process_image_removal ops env image cdata (some rdata) store rid).aiCalled
            = true →
          (process_image_removal ops env image cdata (some rdata) store rid).aiRegionsArg
            = none) := by
  intro ops env image cdata rdata store rid himg hrd hnone
  have hre : regionsEmpty (some rdata) = false := by
    simp [regionsEmpty, hrd]
  have hcond : (regionsEmpty (some rdata) && decide (cdata.length < 3)) = false := by
    rw [hre]
    rfl
  have hargs : regionsArgOf (some rdata) = none := by
    simp only [regionsArgOf, parsedRegions]
    rw [List.filterMap_eq_nil_iff.mpr hnone]
    rfl
  cases hdec : env.decodeRes with
  | error e =>
    unfold process_image_removal
    rw [if_neg himg, hcond]
    refine ⟨?_, hargs, ?_⟩ <;> simp [hdec]
  | ok p =>
    obtain ⟨w, h⟩ := p
    obtain ⟨_, _, hr, hv⟩ := process_ai_fields ops env image cdata (some rdata)
      store rid w h himg hcond hdec
    exact ⟨hv, hargs, fun _ => by rw [hr, hargs]⟩

/-- Witness for C9: one region entry with a missing x field. -/
theorem malformed_regions_skipped_witness :
    (process_image_removal opsW envW ("img") []
        (some [{ x := none, y := some 0, width := some 5, height := some 5 }])
        [] "rid").validationFailed = false
    ∧ regionsArgOf
        (some [{ x := none, y := some 0, width := some 5, height := some 5 }])
        = none := by
  obtain ⟨h1, h2, _⟩ := malformed_regions_skipped opsW envW ("img") []
    [{ x := none, y := some 0, width := some 5, height := some 5 }] [] "rid"
    (by decide) (by simp) (by
      intro r hr
      simp only [List.mem_singleton] at hr
      rw [hr]
      rfl)
  exact ⟨h1, h2⟩

lemma remove_object_raster_result (ops : PILOps) (env : AIEnv)
    (img : String) (c : List (Int × Int)) (rg : Option (List Region))
    (a b : Bool) :
    (remove_object ops { env with rasterOk := a } img c rg).result
      = (remove_object ops { env with rasterOk := b } img c rg).result := by
  obtain ⟨key, dec, rk, co, fe, bb, el⟩ := env
  unfold remove_object remove_object_coords remove_object_with_mask urlToBase64
  dsimp only
  repeat' split
  all_goals rfl

/-- C3: a rasterization failure while building a mask is caught and
downgraded: the builders return the all-black mask with an error logged
(they never raise), and the result and store of the overall process request are
the same as they would have been had rasterization succeeded — masking
never fails the request. -/
theorem mask_failure_never_fails_request :
    (∀ (ops : PILOps) (w h : Nat) (coords : List (Int × Int)),
      create_mask_from_coordinates ops false w h coords
        = ({ width := w, height := h, pix := fun _ _ => false }, true))
    ∧ (∀ (ops : PILOps) (w h : Nat) (rs : List Region),
      create_mask_base64_from_regions ops false w h rs
        = (ops.maskEncode { width := w, height := h, pix := fun _ _ => false },
            true))
    ∧ (∀ (ops : PILOps) (env : AIEnv) (image : String)
        (cdata : List CoordData) (rdata : Option (List RegionData))
        (store : List (String × StoredEntry)) (rid : String),
      (process_image_removal ops { env with rasterOk := false } image cdata
          rdata store rid).result
        = (process_image_removal ops { env with rasterOk := true } image cdata
            rdata store rid).result
      ∧ (process_image_removal ops { env with rasterOk := false } image cdata
          rdata store rid).store
        = (process_image_removal ops { env with rasterOk := true } image cdata
            rdata store rid).store) := by
  refine ⟨fun ops w h coords => rfl, fun ops w h rs => rfl, ?_⟩
  intro ops env image cdata rdata store rid
  obtain ⟨key, dec, rk, co, fe, bb, el⟩ := env
  by_cases h1 : image = ""
  · constructor <;> simp [process_image_removal, h1]
  · by_cases h2 : (regionsEmpty rdata && decide (cdata.length < 3)) = true
    · constructor <;> simp [process_image_removal, h1, h2]
    · cases dec with
      | error e =>
        constructor <;> simp only [process_image_removal, h1, h2]
      | ok p =>
        obtain ⟨w, h⟩ := p
        simp only [process_image_removal, h1, h2]
        have hres := remove_object_raster_result ops
          ⟨key, Except.ok (w, h), rk, co, fe, bb, el⟩ image
          (List.map (fun c => (c.x, c.y)) cdata) (regionsArgOf rdata)
          false true
        dsimp only at hres
        rw [hres]
        cases hts : (remove_object ops
          ⟨key, Except.ok (w, h), true, co, fe, bb, el⟩ image
          (List.map (fun c => (c.x, c.y)) cdata)
          (regionsArgOf rdata)).result.success
        · simp
        · simp

/-- C8: for fewer than 3 coordinates (including none) the polygon mask
builder returns normally — an all-black mask of the requested size — rather
than raising: the polygon is silently not drawn. -/
theorem few_coordinates_noop_mask :
    ∀ (ops : PILOps) (rasterOk : Bool) (w h : Nat)
      (coords : List (Int × Int)),
      coords.length < 3 →
      (create_mask_from_coordinates ops rasterOk w h coords).1.width = w
      ∧ (create_mask_from_coordinates ops rasterOk w h coords).1.height = h
      ∧ ∀ px py,
          (create_mask_from_coordinates ops rasterOk w h coords).1.pix px py
            = false := by
  intro ops rasterOk w h coords hlt
  cases rasterOk
  · exact ⟨rfl, rfl, fun px py => rfl⟩
  · refine ⟨rfl, rfl, fun px py => ?_⟩
    show (if 3 ≤ coords.length then ops.polyFill coords px py else false)
      = false
    rw [if_neg (by omega)]

/-- Witness for C8 with an empty coordinate list on a 2-by-2 canvas. -/
theorem few_coordinates_noop_mask_witness :
    (create_mask_from_coordinates opsW true 2 2 []).1.width = 2
    ∧ (create_mask_from_coordinates opsW true 2 2 []).1.pix 0 0 = false := by
  obtain ⟨hw, _, hp⟩ :=
    few_coordinates_noop_mask opsW true 2 2 [] (by decide)
  exact ⟨hw, hp 0 0⟩

lemma dims_ne_unknown (w h : Nat) :
    ¬ (toString w ++ "x" ++ toString h) = "unknown" := by
  intro hEq
  have hx : 'x' ∈ (toString w ++ "x" ++ toString h).data := by
    rw [String.data_append, String.data_append]
    exact List.mem_append.mpr (Or.inl (List.mem_append.mpr (Or.inr (by decide))))
  rw [hEq] at hx
  revert hx
  decide

lemma pyLen_eq (c : List (Int × Int)) :
    (if c.isEmpty then 0 else c.length) = c.length := by
  cases c <;> simp

lemma with_mask_success_fields (co : Except String ReplicateOutput)
    (fe : Except String (List Nat)) (bb : List Nat → String) (el : Nat)
    (si mi : String) (me : Bool) (ms : String) (c : List (Int × Int))
    (w h : Nat) :
    (remove_object_with_mask co fe bb el si mi me ms c w h).result.success
        = true →
    (remove_object_with_mask co fe bb el si mi me ms c w h).result.coordinates_analyzed
        = some (if c.isEmpty then 0 else c.length)
    ∧ (remove_object_with_mask co fe bb el si mi me ms c w h).result.mask_generated
        = some true
    ∧ (remove_object_with_mask co fe bb el si mi me ms c w h).result.image_dimensions
        = some (toString w ++ "x" ++ toString h) := by
  unfold remove_object_with_mask
  repeat' split
  all_goals simp

lemma process_success_analysis (ops : PILOps) (env : AIEnv) (image : String)
    (cdata : List CoordData) (rdata : Option (List RegionData))
    (store : List (String × StoredEntry)) (rid : String) (w h : Nat)
    (himg : ¬ image = "")
    (hcond : (regionsEmpty rdata && decide (cdata.length < 3)) = false)
    (hdec : env.decodeRes = Except.ok (w, h)) :
    (process_image_removal ops env image cdata rdata store rid).result.success
        = true →
    (remove_object ops env image (cdata.map fun c => (c.x, c.y))
        (regionsArgOf rdata)).result.success = true
    ∧ (process_image_removal ops env image cdata rdata store rid).result.ai_analysis
      = some ("Successfully removed object using mask-based approach"
          ++ (if ((remove_object ops env image (cdata.map fun c => (c.x, c.y))
                    (regionsArgOf rdata)).result.mask_generated).getD false then
                " - Generated binary mask from "
                ++ toString (((remove_object ops env image
                      (cdata.map fun c => (c.x, c.y))
                      (regionsArgOf rdata)).result.coordinates_analyzed).getD
                    (cdata.map fun c => (c.x, c.y)).length)
                ++ " polygon points"
              else "")
          ++ (if ((remove_object ops env image (cdata.map fun c => (c.x, c.y))
                    (regionsArgOf rdata)).result.image_dimensions).getD ("unknown")
                = "unknown" then ""
              else " - Processed image: "
                ++ ((remove_object ops env image (cdata.map fun c => (c.x, c.y))
                      (regionsArgOf rdata)).result.image_dimensions).getD
                    ("unknown"))) := by
  unfold process_image_removal
  rw [if_neg himg, hcond]
  simp only [Bool.false_eq_true, if_false, hdec]
  split
  · intro _
    exact ⟨by assumption, rfl⟩
  · intro hcontra
    simp at hcontra

/-- C2 amended: when a process request supplies both a non-empty (parsed)
region list and coordinates, the mask sent to the inpainting call is the
region-derived mask and the internal log line reports the mask source as
regions; the returned analysis message, however, always reports the
coordinate count as polygon points — only the log, not the returned
message, reveals that regions were used. -/
theorem region_precedence_and_message :
    ∀ (ops : PILOps) (env : AIEnv) (image : String) (cdata : List CoordData)
      (rdata : List RegionData) (store : List (String × StoredEntry))
      (rid : String) (w h : Nat),
      image ≠ "" → env.apiKeyPresent = true →
      env.decodeRes = Except.ok (w, h) →
      0 < (parsedRegions (some rdata)).length →
      (process_image_removal ops env image cdata (some rdata) store
          rid).aiRegionsArg = some (parsedRegions (some rdata))
      ∧ (∃ t, (process_image_removal ops env image cdata (some rdata) store
            rid).ai = some t
          ∧ t.sentMask = some ("data:image/png;base64,"
              ++ (create_mask_base64_from_regions ops env.rasterOk w h
                    (parsedRegions (some rdata))).1)
          ∧ t.loggedMaskSource
              = some (toString (parsedRegions (some rdata)).length
                  ++ " regions"))
      ∧ ((process_image_removal ops env image cdata (some rdata) store
            rid).result.success = true →
          (process_image_removal ops env image cdata (some rdata) store
            rid).result.ai_analysis
            = some ("Successfully removed object using mask-based approach"
                ++ (" - Generated binary mask from " ++ toString cdata.length
                    ++ " polygon points")
                ++ (" - Processed image: "
                    ++ (toString w ++ "x" ++ toString h)))) := by
  intro ops env image cdata rdata store rid w h himg hkey hdec hpr
  have hrd : rdata ≠ [] := by
    intro hnil
    rw [hnil] at hpr
    simp [parsedRegions] at hpr
  have hre : regionsEmpty (some rdata) = false := by
    simp [regionsEmpty, hrd]
  have hcond : (regionsEmpty (some rdata) && decide (cdata.length < 3))
      = false := by
    rw [hre]
    rfl
  have hargs : regionsArgOf (some rdata) = some (parsedRegions (some rdata)) := by
    unfold regionsArgOf
    rw [if_pos hpr]
  obtain ⟨hai, _, hr, _⟩ := process_ai_fields ops env image cdata (some rdata)
    store rid w h himg hcond hdec
  have hrw := remove_object_some_regions ops env image
    (cdata.map fun c => (c.x, c.y)) (parsedRegions (some rdata)) w h hkey hdec
    hpr
  refine ⟨by rw [hr, hargs], ?_, ?_⟩
  · rw [hargs, hrw] at hai
    refine ⟨_, hai, ?_, ?_⟩
    · exact (with_mask_trace _ _ _ _ _ _ _ _ _ _ _).2.1
    · exact (with_mask_trace _ _ _ _ _ _ _ _ _ _ _).2.2.1
  · intro hsucc
    obtain ⟨hts, hmsg⟩ := process_success_analysis ops env image cdata
      (some rdata) store rid w h himg hcond hdec hsucc
    rw [hargs, hrw] at hts
    obtain ⟨hca, hmg, hdim⟩ := with_mask_success_fields _ _ _ _ _ _ _ _ _ _ _ hts
    rw [hmsg, hargs, hrw, hca, hmg, hdim]
    rw [Option.getD_some, Option.getD_some, Option.getD_some]
    rw [if_pos rfl, if_neg (dims_ne_unknown w h)]
    rw [pyLen_eq, List.length_map]

/-- One malformed-free region entry used in the concrete runs. -/
def regW : RegionData :=
  { x := some 0, y := some 0, width := some 5, height := some 5 }

/-- The analysis message returned by the concrete mixed request. -/
def msgW : String :=
  "Successfully removed object using mask-based approach - Generated binary mask from 3 polygon points - Processed image: 20x20"

/-- C2 counterexample: a concrete request supplying both three coordinates
and one region succeeds through the region mask, yet its returned analysis
message mentions polygon points and never mentions regions — contradicting
the claim that the analysis message reports the mask source as regions. -/
theorem precedence_message_counterexample :
    (process_image_removal opsW envW ("img") cdata3 (some [regW]) []
        "rid").result.ai_analysis = some msgW
    ∧ ("polygon points".toList <:+: msgW.toList)
    ∧ ¬ ("regions".toList <:+: msgW.toList) := by
  refine ⟨?_, by decide, by decide⟩
  rfl

/-- Witness for the amended C2 theorem at the concrete mixed request. -/
theorem region_precedence_and_message_witness :
    (process_image_removal opsW envW ("img") cdata3 (some [regW]) []
        "rid").aiRegionsArg = some (parsedRegions (some [regW])) := by
  exact (region_precedence_and_message opsW envW ("img") cdata3 [regW] [] "rid"
    20 20 (by decide) rfl rfl (by decide)).1

/-- An in-memory raster (`PIL.Image.Image`), reduced to the attributes the
codec path observes: dimensions, color mode and pixel data. -/
structure PILImage where
  width : Nat
  height : Nat
  mode : String
  pix : List Nat
deriving DecidableEq

/-- `config.MAX_FILE_SIZE` (10 MB). -/
def MAX_FILE_SIZE : Nat := 10 * 1024 * 1024

/-- `ImageUtils.validate_image_size`. -/
def validate_image_size (image_data : List Nat) : Bool :=
  image_data.length ≤ MAX_FILE_SIZE

/-- `ImageUtils.decode_base64_image`: strip an optional data-URI part
before the comma, base64-decode, enforce the size limit, parse the bytes as
an image and normalize to RGB.  The base64 decoder, the image parser and
the RGB conversion are external library calls passed as parameters;
returning `none` stands for the exception they can raise, surfaced as the
caught `ValueError`. -/
def decode_base64_image (b64decode : String → Option (List Nat))
    (imageParse : List Nat → Option PILImage)
    (convertRGB : PILImage → PILImage) (base64_string : String) :
    Except String PILImage :=
  let s1 := if base64_string.data.contains ',' then
      ((pySplitComma base64_string).get? 1).getD ("")
    else base64_string
  match b64decode s1 with
  | none => Except.error ("Failed to decode image: bad base64")
  | some image_data =>
    if validate_image_size image_data then
      match imageParse image_data with
      | none => Except.error ("Failed to decode image: cannot identify image")
      | some image => Except.ok (convertRGB image)
    else
      Except.error ("Failed to decode image: Image size exceeds maximum limit")

/-- `ImageUtils.encode_image_to_base64`: save as PNG, then base64. -/
def encode_image_to_base64 (b64encode : List Nat → String)
    (pngSave : PILImage → List Nat) (image : PILImage) : String :=
  b64encode (pngSave image)

/-- C6 amended: for a raster image accepted by the decoder, decoding its
encoding reproduces it exactly provided the re-encoded PNG stays within the
configured size limit — without that proviso the round trip can fail (see
the size counterexample below).  The external library contracts at the
image in question are assumed: base64 decode inverts base64 encode, base64
output contains no comma, the PNG parser inverts the PNG serializer (PNG is
lossless), and RGB conversion fixes an already-RGB image. -/
theorem codec_round_trip :
    ∀ (b64encode : List Nat → String) (b64decode : String → Option (List Nat))
      (pngSave : PILImage → List Nat)
      (imageParse : List Nat → Option PILImage)
      (convertRGB : PILImage → PILImage) (x : PILImage),
      (∃ s, decode_base64_image b64decode imageParse convertRGB s
          = Except.ok x) →
      (b64encode (pngSave x)).data.contains ',' = false →
      b64decode (b64encode (pngSave x)) = some (pngSave x) →
      imageParse (pngSave x) = some x →
      convertRGB x = x →
      (pngSave x).length ≤ MAX_FILE_SIZE →
      decode_base64_image b64decode imageParse convertRGB
          (encode_image_to_base64 b64encode pngSave x) = Except.ok x := by
  intro b64encode b64decode pngSave imageParse convertRGB x hacc hnc hb64
    hparse hconv hsize
  have hval : validate_image_size (pngSave x) = true := by
    unfold validate_image_size
    exact decide_eq_true hsize
  unfold decode_base64_image encode_image_to_base64
  rw [hnc]
  simp only [Bool.false_eq_true, if_false, hb64, hval, if_true, hparse, hconv]

/-- Concrete RGB image for the codec witness. -/
def xW : PILImage := { width := 1, height := 1, mode := "RGB", pix := [1, 2, 3] }

/-- Witness for C6 with concrete (injective-at-`xW`) external codecs. -/
theorem codec_round_trip_witness :
    decode_base64_image (fun _ => some [7]) (fun _ => some xW) (fun i => i)
        (encode_image_to_base64 (fun _ => "E") (fun _ => [7]) xW)
      = Except.ok xW := by
  exact codec_round_trip (fun _ => "E") (fun _ => some [7]) (fun _ => [7])
    (fun _ => some xW) (fun i => i) xW ⟨"E", rfl⟩ (by decide) rfl rfl rfl
    (by decide)

/-- A decoded raster standing for a large image (e.g. a big JPEG) whose
compact source encoding is accepted by the decoder. -/
def xBig : PILImage := { width := 4000, height := 3000, mode := "RGB", pix := [0] }

/-- A PNG serialization one byte over `config.MAX_FILE_SIZE`. -/
def bigPng : List Nat := List.replicate (MAX_FILE_SIZE + 1) 0

/-- External base64 decoder for the size counterexample: the compact source
encoding decodes to one byte, everything else (in particular the re-encoded
PNG text) to the oversized byte string. -/
def b64decodeCx : String → Option (List Nat) :=
  fun s => if s = "J" then some [1] else some bigPng

/-- External image parser for the size counterexample: both byte strings
parse back to the same raster (the PNG side conforming to losslessness). -/
def imageParseCx : List Nat → Option PILImage := fun _ => some xBig

/-- External PNG serializer for the size counterexample: `xBig` re-encodes
to the oversized PNG. -/
def pngSaveCx : PILImage → List Nat := fun _ => bigPng

/-- External base64 encoder for the size counterexample (comma-free). -/
def b64encodeCx : List Nat → String := fun _ => "B"

lemma decode_size_reject (b64decode : String → Option (List Nat))
    (imageParse : List Nat → Option PILImage)
    (convertRGB : PILImage → PILImage) (s : String) (bytes : List Nat)
    (hcomma : s.data.contains ',' = false)
    (hb : b64decode s = some bytes)
    (hval : validate_image_size bytes = false) :
    decode_base64_image b64decode imageParse convertRGB s
      = Except.error ("Failed to decode image: Image size exceeds maximum limit") := by
  unfold decode_base64_image
  rw [hcomma]
  simp only [Bool.false_eq_true, if_false, hb, hval]

/-- C6 counterexample: the round-trip claim fails as stated.  With external
codecs honoring every library contract at the image in question — base64
decode inverts base64 encode on the re-encoded PNG, the base64 text is
comma-free, and the PNG parser inverts the PNG serializer — an image whose
compact source encoding is accepted by the decoder re-encodes to a PNG one
byte over `MAX_FILE_SIZE`, and decoding the encoding then fails the size
check of `ImageUtils.decode_base64_image` instead of reproducing the
image. -/
theorem codec_round_trip_size_counterexample :
    (∃ s, decode_base64_image b64decodeCx imageParseCx (fun i => i) s
        = Except.ok xBig)
    ∧ (b64encodeCx (pngSaveCx xBig)).data.contains ',' = false
    ∧ b64decodeCx (b64encodeCx (pngSaveCx xBig)) = some (pngSaveCx xBig)
    ∧ imageParseCx (pngSaveCx xBig) = some xBig
    ∧ decode_base64_image b64decodeCx imageParseCx (fun i => i)
        (encode_image_to_base64 b64encodeCx pngSaveCx xBig)
      = Except.error ("Failed to decode image: Image size exceeds maximum limit")
    ∧ decode_base64_image b64decodeCx imageParseCx (fun i => i)
        (encode_image_to_base64 b64encodeCx pngSaveCx xBig)
      ≠ Except.ok xBig := by
  have hval : validate_image_size bigPng = false := by
    unfold validate_image_size bigPng
    rw [List.length_replicate]
    decide
  have hrej : decode_base64_image b64decodeCx imageParseCx (fun i => i)
      (encode_image_to_base64 b64encodeCx pngSaveCx xBig)
      = Except.error ("Failed to decode image: Image size exceeds maximum limit") :=
    decode_size_reject b64decodeCx imageParseCx (fun i => i) _ bigPng
      (by decide) rfl hval
  refine ⟨⟨"J", rfl⟩, by decide, rfl, rfl, hrej, ?_⟩
  rw [hrej]
  intro hcontra
  cases hcontra

/-- One audited record (`models.ImageAction`), reduced to its identifying
fields. -/
structure ImageAction where
  id : String
  action_type : String
  image_id : String

/-- `LoggingService._write_action_to_file`: on a healthy file the log is
read, appended, capped and rewritten; any failure while reading or writing
the file is caught and only logged, leaving the persisted log as it was —
the caller never sees an exception.  `fileOk = false` stands for such a
failure; the flag in the result records that an error was logged. -/
def writeActionToFile {α : Type} (fileOk : Bool) (log : List α) (a : α) :
    List α × Bool :=
  if fileOk then (appendAction log a, false) else (log, true)

/-- `LoggingService.log_image_upload`: persist the record, then return the
action id regardless of the persistence outcome. -/
def log_image_upload (fileOk : Bool) (log : List ImageAction)
    (a : ImageAction) : (List ImageAction × Bool) × String :=
  (writeActionToFile fileOk log a, a.id)

/-- `LoggingService.log_image_processing`: same persistence behavior. -/
def log_image_processing (fileOk : Bool) (log : List ImageAction)
    (a : ImageAction) : (List ImageAction × Bool) × String :=
  (writeActionToFile fileOk log a, a.id)

/-- `LoggingService.log_image_download`: same persistence behavior. -/
def log_image_download (fileOk : Bool) (log : List ImageAction)
    (a : ImageAction) : (List ImageAction × Bool) × String :=
  (writeActionToFile fileOk log a, a.id)

/-- The dictionary returned by `ImageService.validate_and_process_upload`. -/
structure UploadResult where
  success : Bool
  image_id : Option String := none
  error : Option String := none

/-- `ImageService.validate_and_process_upload`: decode, log the upload and
report success; a decode failure is caught and reported as failure. -/
def validate_and_process_upload (fileOk : Bool)
    (decodeRes : Except String (Nat × Nat)) (image_id : String)
    (log : List ImageAction) : UploadResult × List ImageAction :=
  match decodeRes with
  | Except.error e => ({ success := false, error := some e }, log)
  | Except.ok _ =>
    let wres := log_image_upload fileOk log
      { id := image_id, action_type := "upload", image_id := image_id }
    ({ success := true, image_id := some image_id }, wres.1.1)

/-- C10: a failure while persisting an audit record is swallowed — the
append returns normally with the log unchanged and only an error logged,
each logging wrapper still returns the action id, and the enclosing
operation reports the same success as with a healthy log file; in
particular an upload whose decode succeeds still succeeds. -/
theorem audit_persist_failure_swallowed :
    (∀ (α : Type) (log : List α) (a : α),
      writeActionToFile false log a = (log, true))
    ∧ (∀ (fileOk : Bool) (log : List ImageAction) (a : ImageAction),
      (log_image_upload fileOk log a).2 = a.id
      ∧ (log_image_processing fileOk log a).2 = a.id
      ∧ (log_image_download fileOk log a).2 = a.id)
    ∧ (∀ (decodeRes : Except String (Nat × Nat)) (image_id : String)
        (log : List ImageAction),
      (validate_and_process_upload false decodeRes image_id log).1.success
        = (validate_and_process_upload true decodeRes image_id log).1.success
      ∧ (validate_and_process_upload false decodeRes image_id log).2 = log)
    ∧ (∀ (w h : Nat) (image_id : String) (log : List ImageAction),
      (validate_and_process_upload false (Except.ok (w, h)) image_id
          log).1.success = true) := by
  refine ⟨fun α log a => rfl, fun fileOk log a => ⟨rfl, rfl, rfl⟩, ?_,
    fun w h i l => rfl⟩
  intro decodeRes image_id log
  cases decodeRes <;> exact ⟨rfl, rfl⟩

end Eraser
